import Mathlib

/-!
# Verification of the MapTemaMapBiomas symbology core

This file embeds the style-entity data model, the 13-byte binary codec, the
Base62 text codec and the format renderers of the repository, and proves the
specified properties about them.

The Python core module (`scr/core/model/symbology.py`) is not part of the
available sources; the definitions below that embed it are modelled from the
specification (data model, binary layout, Base62 contract, renderer
contracts) and from its documentation.  The enumeration member lists mirror
`src/frontend/src/utils/constants.ts`, which is part of the sources.
-/

/-- Geometry kinds of a style entity: POLYGON, LINE, POINT with wire
ordinals 0, 1, 2. -/
inductive SymbologyGeometryType where
  | POLYGON
  | LINE
  | POINT
deriving DecidableEq, Repr

/-- Wire ordinal of a geometry kind (byte at offset 0 of the packed layout). -/
def SymbologyGeometryType.code : SymbologyGeometryType → Nat
  | .POLYGON => 0
  | .LINE => 1
  | .POINT => 2

/-- Ordinal-indexed reverse mapping for geometry kinds; out-of-range
ordinals have no entry. -/
def SymbologyGeometryType.fromCode : Nat → Option SymbologyGeometryType
  | 0 => some .POLYGON
  | 1 => some .LINE
  | 2 => some .POINT
  | _ => none

/-- The 12-value fill-pattern table, in wire-ordinal order (used when the
geometry kind is not POINT). -/
inductive SymbologyFill where
  | SOLID
  | NOBRUSH
  | SLASH
  | BACKSLASH
  | PIPE
  | DASH
  | PLUS
  | X
  | O_LOWER
  | O_UPPER
  | DOT
  | STAR
deriving DecidableEq, Repr

/-- Wire ordinal of a fill pattern (zero-based, in listed order). -/
def SymbologyFill.code : SymbologyFill → Nat
  | .SOLID => 0
  | .NOBRUSH => 1
  | .SLASH => 2
  | .BACKSLASH => 3
  | .PIPE => 4
  | .DASH => 5
  | .PLUS => 6
  | .X => 7
  | .O_LOWER => 8
  | .O_UPPER => 9
  | .DOT => 10
  | .STAR => 11

/-- Ordinal-indexed reverse mapping for fill patterns. -/
def SymbologyFill.fromCode : Nat → Option SymbologyFill
  | 0 => some .SOLID
  | 1 => some .NOBRUSH
  | 2 => some .SLASH
  | 3 => some .BACKSLASH
  | 4 => some .PIPE
  | 5 => some .DASH
  | 6 => some .PLUS
  | 7 => some .X
  | 8 => some .O_LOWER
  | 9 => some .O_UPPER
  | 10 => some .DOT
  | 11 => some .STAR
  | _ => none

/-- The 12-value marker-shape table, in wire-ordinal order (used when the
geometry kind is POINT). -/
inductive MarkerType where
  | CIRCLE
  | SQUARE
  | TRIANGLE
  | STAR
  | CROSS
  | DIAMOND
  | PENTAGON
  | HEXAGON
  | ARROW
  | VERTICAL_ARROW
  | X_MARK
  | PLUS_MARK
deriving DecidableEq, Repr

/-- Wire ordinal of a marker shape (zero-based, in listed order). -/
def MarkerType.code : MarkerType → Nat
  | .CIRCLE => 0
  | .SQUARE => 1
  | .TRIANGLE => 2
  | .STAR => 3
  | .CROSS => 4
  | .DIAMOND => 5
  | .PENTAGON => 6
  | .HEXAGON => 7
  | .ARROW => 8
  | .VERTICAL_ARROW => 9
  | .X_MARK => 10
  | .PLUS_MARK => 11

/-- Ordinal-indexed reverse mapping for marker shapes. -/
def MarkerType.fromCode : Nat → Option MarkerType
  | 0 => some .CIRCLE
  | 1 => some .SQUARE
  | 2 => some .TRIANGLE
  | 3 => some .STAR
  | 4 => some .CROSS
  | 5 => some .DIAMOND
  | 6 => some .PENTAGON
  | 7 => some .HEXAGON
  | 8 => some .ARROW
  | 9 => some .VERTICAL_ARROW
  | 10 => some .X_MARK
  | 11 => some .PLUS_MARK
  | _ => none

/-- The 11-value line-style table, in wire-ordinal order. -/
inductive LineStyle where
  | SOLID
  | DASHED
  | DOTTED
  | DASH_DOT
  | LONG_DASH
  | SHORT_DASH
  | DASH_DOT_DOT
  | DASH_DOT_DOT_DOT
  | SPARSE_DOT
  | DENSE_DOT
  | NONE
deriving DecidableEq, Repr

/-- Modelled from the spec: each enumeration member carries an explicit
zero-based wire ordinal, assigned in the order the members are listed
(byte at offset 9 of the packed layout). -/
def LineStyle.code : LineStyle → Nat
  | .SOLID => 0
  | .DASHED => 1
  | .DOTTED => 2
  | .DASH_DOT => 3
  | .LONG_DASH => 4
  | .SHORT_DASH => 5
  | .DASH_DOT_DOT => 6
  | .DASH_DOT_DOT_DOT => 7
  | .SPARSE_DOT => 8
  | .DENSE_DOT => 9
  | .NONE => 10

/-- Ordinal-indexed reverse mapping for line styles. -/
def LineStyle.fromCode : Nat → Option LineStyle
  | 0 => some .SOLID
  | 1 => some .DASHED
  | 2 => some .DOTTED
  | 3 => some .DASH_DOT
  | 4 => some .LONG_DASH
  | 5 => some .SHORT_DASH
  | 6 => some .DASH_DOT_DOT
  | 7 => some .DASH_DOT_DOT_DOT
  | 8 => some .SPARSE_DOT
  | 9 => some .DENSE_DOT
  | 10 => some .NONE
  | _ => none

/-- Member name of a line style, as it appears on the wire-facing API. -/
def LineStyle.memberName : LineStyle → String
  | .SOLID => "SOLID"
  | .DASHED => "DASHED"
  | .DOTTED => "DOTTED"
  | .DASH_DOT => "DASH_DOT"
  | .LONG_DASH => "LONG_DASH"
  | .SHORT_DASH => "SHORT_DASH"
  | .DASH_DOT_DOT => "DASH_DOT_DOT"
  | .DASH_DOT_DOT_DOT => "DASH_DOT_DOT_DOT"
  | .SPARSE_DOT => "SPARSE_DOT"
  | .DENSE_DOT => "DENSE_DOT"
  | .NONE => "NONE"

/-- All line styles in listed (wire-ordinal) order. -/
def LineStyle.members : List LineStyle :=
  [.SOLID, .DASHED, .DOTTED, .DASH_DOT, .LONG_DASH, .SHORT_DASH,
   .DASH_DOT_DOT, .DASH_DOT_DOT_DOT, .SPARSE_DOT, .DENSE_DOT, .NONE]

/-- Member names of `LINE_STYLES` from
`src/frontend/src/utils/constants.ts`, in source order. -/
def LINE_STYLES : List String :=
  ["SOLID", "DASHED", "DOTTED", "DASH_DOT", "LONG_DASH", "SHORT_DASH",
   "DASH_DOT_DOT", "DASH_DOT_DOT_DOT", "SPARSE_DOT", "DENSE_DOT", "NONE"]

/-- Member names of `FILL_STYLES` from
`src/frontend/src/utils/constants.ts`, in source order. -/
def FILL_STYLES : List String :=
  ["SOLID", "NOBRUSH", "SLASH", "BACKSLASH", "PIPE", "DASH", "PLUS", "X",
   "O_LOWER", "O_UPPER", "DOT", "STAR"]

/-- Member names of `MARKER_TYPES` from
`src/frontend/src/utils/constants.ts`, in source order. -/
def MARKER_TYPES : List String :=
  ["CIRCLE", "SQUARE", "TRIANGLE", "STAR", "CROSS", "DIAMOND", "PENTAGON",
   "HEXAGON", "ARROW", "VERTICAL_ARROW", "X_MARK", "PLUS_MARK"]

/-- An opaque 24-bit RGB color triple (one natural per channel, validated
to lie in 0–255 at entity construction). -/
structure RGB where
  red : Nat
  green : Nat
  blue : Nat
deriving DecidableEq, Repr

/-- The fill-style field of an entity: a fill pattern for POLYGON/LINE
geometries, a marker shape for POINT geometries (tagged variant keyed by
the geometry kind, sharing one wire byte at offset 4). -/
inductive FillStyleOrMarker where
  | fillPattern (f : SymbologyFill)
  | marker (m : MarkerType)
deriving DecidableEq, Repr

/-- Wire ordinal of the fill-style field (byte at offset 4), taken from the
table matching the variant. -/
def FillStyleOrMarker.code : FillStyleOrMarker → Nat
  | .fillPattern f => f.code
  | .marker m => m.code

/-- Modelled from the spec: the immutable style entity with its seven
fields (geometry kind, fill color, fill style, fill density, stroke color,
stroke style, stroke width).  The Python class `Symbology` is not among the
available sources. -/
structure Symbology where
  symbology_geometry_type : SymbologyGeometryType
  symbology_fill_color : RGB
  symbology_fill_style : FillStyleOrMarker
  symbology_fill_density : Nat
  symbology_stroke_color : RGB
  symbology_stroke_style : LineStyle
  symbology_stroke_line : ℚ
deriving DecidableEq, Repr

/-- Stable, order-preserving projection of all fields, used for equality,
hashing and as canonical codec input. -/
def Symbology.cache_key (s : Symbology) :
    SymbologyGeometryType × RGB × FillStyleOrMarker × Nat × RGB × LineStyle × ℚ :=
  (s.symbology_geometry_type, s.symbology_fill_color, s.symbology_fill_style,
   s.symbology_fill_density, s.symbology_stroke_color, s.symbology_stroke_style,
   s.symbology_stroke_line)

/-- Big-endian digits of `n` in base `base`, fixed width `fuel` (most
significant digit first, left-padded with zeros). -/
def natToDigitsBE (base : Nat) : Nat → Nat → List Nat
  | 0, _ => []
  | fuel + 1, n => natToDigitsBE base fuel (n / base) ++ [n % base]

/-- Value of a big-endian digit list in base `base`. -/
def digitsToNat (base : Nat) (l : List Nat) : Nat :=
  l.foldl (fun acc d => acc * base + d) 0

/-- Modelled from the spec: stroke width × 1000, rounded to the nearest
integer (the 16-bit quantity stored big-endian at offsets 10–11). -/
def strokeMilli (q : ℚ) : Nat := (round (q * 1000)).toNat

/-- Modelled from the spec: the fixed 13-byte binary layout.  Offset 0
geometry ordinal, 1–3 fill RGB, 4 fill-style ordinal (table chosen by the
geometry kind), 5 fill density, 6–8 stroke RGB, 9 stroke-style ordinal,
10–11 stroke width × 1000 big-endian, 12 reserved zero.  The Python
`_pack_binary` is not among the available sources. -/
def Symbology.pack (s : Symbology) : List Nat :=
  let w := strokeMilli s.symbology_stroke_line
  [s.symbology_geometry_type.code,
   s.symbology_fill_color.red, s.symbology_fill_color.green,
   s.symbology_fill_color.blue,
   s.symbology_fill_style.code,
   s.symbology_fill_density,
   s.symbology_stroke_color.red, s.symbology_stroke_color.green,
   s.symbology_stroke_color.blue,
   s.symbology_stroke_style.code,
   w / 256, w % 256,
   0]

/-- Failures of the binary codec: wrong buffer length, an ordinal beyond
its table bound, or a non-zero reserved byte. -/
inductive DecodeError where
  | badLength (received : Nat)
  | badGeometry (b : Nat)
  | badFillStyle (b : Nat)
  | badDensity (b : Nat)
  | badStrokeStyle (b : Nat)
  | badReserved (b : Nat)
deriving DecidableEq, Repr

/-- Modelled from the spec: inverse of `Symbology.pack`.  Reads the
geometry ordinal at offset 0 first and selects the decoding table for the
byte at offset 4 accordingly; fails with a `DecodeError` on a wrong
length, an out-of-range ordinal, or a non-zero reserved byte.  The Python
`_unpack_binary` is not among the available sources. -/
def Symbology.unpack (bytes : List Nat) : Except DecodeError Symbology :=
  match bytes with
  | [b0, b1, b2, b3, b4, b5, b6, b7, b8, b9, b10, b11, b12] =>
    match SymbologyGeometryType.fromCode b0 with
    | none => .error (.badGeometry b0)
    | some g =>
      let fs? : Option FillStyleOrMarker :=
        match g with
        | .POINT => (MarkerType.fromCode b4).map .marker
        | .POLYGON => (SymbologyFill.fromCode b4).map .fillPattern
        | .LINE => (SymbologyFill.fromCode b4).map .fillPattern
      match fs? with
      | none => .error (.badFillStyle b4)
      | some fs =>
        if b5 > 10 then .error (.badDensity b5)
        else
          match LineStyle.fromCode b9 with
          | none => .error (.badStrokeStyle b9)
          | some ls =>
            if b12 ≠ 0 then .error (.badReserved b12)
            else .ok
              { symbology_geometry_type := g
                symbology_fill_color := ⟨b1, b2, b3⟩
                symbology_fill_style := fs
                symbology_fill_density := b5
                symbology_stroke_color := ⟨b6, b7, b8⟩
                symbology_stroke_style := ls
                symbology_stroke_line := ((b10 * 256 + b11 : Nat) : ℚ) / 1000 }
  | _ => .error (.badLength bytes.length)

/-- The fixed 62-symbol alphabet: digits 0–9, then A–Z, then a–z. -/
def BASE62_ALPHABET : List Char :=
  "0123456789ABCDEFGHIJKLMNOPQRSTUVWXYZabcdefghijklmnopqrstuvwxyz".data

/-- Symbol for one base-62 digit (the alphabet's zero-symbol on
out-of-range input, which never occurs for digits below 62). -/
def base62Char (d : Nat) : Char := BASE62_ALPHABET.getD d '0'

/-- Position of a character in an alphabet, `none` when absent. -/
def charValueAux : List Char → Char → Option Nat
  | [], _ => none
  | a :: rest, c =>
    if a = c then some 0 else (charValueAux rest c).map (· + 1)

/-- Base-62 digit value of a character, `none` for characters outside the
alphabet. -/
def charValue (c : Char) : Option Nat := charValueAux BASE62_ALPHABET c

/-- Failures of the text codec: a length other than 17 (carrying both the
expected and the received length) or a character outside the alphabet. -/
inductive KeyFormatError where
  | badLength (expected received : Nat)
  | badChar (c : Char)
deriving DecidableEq, Repr

/-- Modelled from the spec: Base62-encode a 13-byte buffer, treated as one
big-endian unsigned integer, into a fixed-width 17-character identifier
left-padded with the alphabet's zero-symbol. -/
def base62Encode (bytes : List Nat) : String :=
  ⟨(natToDigitsBE 62 17 (digitsToNat 256 bytes)).map base62Char⟩

/-- Digit values of a character list, failing on the first character
outside the alphabet. -/
def charValues : List Char → Except Char (List Nat)
  | [] => .ok []
  | c :: cs =>
    match charValue c with
    | none => .error c
    | some d => (charValues cs).map (d :: ·)

/-- Modelled from the spec: Base62-decode a 17-character identifier back
into a 13-byte buffer; fails with `KeyFormatError` when the length differs
from 17 (reporting expected and received length) or a character lies
outside the alphabet. -/
def base62Decode (str : String) : Except KeyFormatError (List Nat) :=
  if str.length = 17 then
    match charValues str.data with
    | .error c => .error (.badChar c)
    | .ok ds => .ok (natToDigitsBE 256 13 (digitsToNat 62 ds))
  else .error (.badLength 17 str.length)

/-- Failures surfaced by `Symbology.from_url_key`: either a text-codec
failure or a binary-codec failure. -/
inductive SymbologyError where
  | keyFormat (e : KeyFormatError)
  | decodeFail (e : DecodeError)
deriving DecidableEq, Repr

/-- `url_key` composes `pack` then Base62 `encode`. -/
def Symbology.url_key (s : Symbology) : String := base62Encode s.pack

/-- `from_url_key` composes Base62 `decode` then `unpack`. -/
def Symbology.from_url_key (str : String) : Except SymbologyError Symbology :=
  match base62Decode str with
  | .error e => .error (.keyFormat e)
  | .ok bytes => (Symbology.unpack bytes).mapError .decodeFail

/-- A color channel triple is in range when every channel is 0–255. -/
def colorOk (c : RGB) : Bool := c.red ≤ 255 && c.green ≤ 255 && c.blue ≤ 255

/-- The fill-style variant matches the geometry kind: marker shapes for
POINT, fill patterns otherwise. -/
def geometryMatchesFill : SymbologyGeometryType → FillStyleOrMarker → Bool
  | .POINT, .marker _ => true
  | .POINT, .fillPattern _ => false
  | .POLYGON, .fillPattern _ => true
  | .POLYGON, .marker _ => false
  | .LINE, .fillPattern _ => true
  | .LINE, .marker _ => false

/-- Round a rational to 3 decimal places (nearest-integer rounding of the
thousandths). -/
def round3 (q : ℚ) : ℚ := ((round (q * 1000) : ℤ) : ℚ) / 1000

/-- Failures of entity construction: a numeric field out of its closed
range or a fill-style variant not matching the geometry kind. -/
inductive ValidationError where
  | fill_density_out_of_range (d : Nat)
  | stroke_width_out_of_range (w : ℚ)
  | color_out_of_range
  | fill_style_mismatch
deriving DecidableEq, Repr

/-- Modelled from the spec: validated construction of a style entity.
Checks the color ranges, the geometry/fill-style match and
`fill_density ∈ [0,10]`, rounds the stroke width to 3 decimals and then
checks `stroke_width ∈ [0.0, 50.0]`; either fully succeeds or returns a
`ValidationError` and no entity. -/
def Symbology.construct (g : SymbologyGeometryType) (fc : RGB)
    (fs : FillStyleOrMarker) (fd : Nat) (sc : RGB) (ss : LineStyle)
    (sw : ℚ) : Except ValidationError Symbology :=
  if !(colorOk fc && colorOk sc) then .error .color_out_of_range
  else if !(geometryMatchesFill g fs) then .error .fill_style_mismatch
  else if fd > 10 then .error (.fill_density_out_of_range fd)
  else
    let w := round3 sw
    if w < 0 ∨ 50 < w then .error (.stroke_width_out_of_range w)
    else .ok
      { symbology_geometry_type := g
        symbology_fill_color := fc
        symbology_fill_style := fs
        symbology_fill_density := fd
        symbology_stroke_color := sc
        symbology_stroke_style := ss
        symbology_stroke_line := w }

/-- A well-formed entity: in-range colors, fill-style variant matching the
geometry kind, density at most 10, and a stroke width that is a whole
number of thousandths between 0 and 50000 of them. -/
def Symbology.Valid (s : Symbology) : Prop :=
  colorOk s.symbology_fill_color = true ∧
  colorOk s.symbology_stroke_color = true ∧
  geometryMatchesFill s.symbology_geometry_type s.symbology_fill_style = true ∧
  s.symbology_fill_density ≤ 10 ∧
  ∃ n : Nat, n ≤ 50000 ∧ s.symbology_stroke_line = (n : ℚ) / 1000

/-- Modelled from the spec: the single shared dash-array mapping table
consumed by every renderer that needs a dash pattern.  The spec pins
DASHED to `"5 5"`, DOTTED to `"1 3"`, and SOLID and NONE to an omitted
dash-array; the remaining members are fixed representative patterns. -/
def sharedDashArray : LineStyle → Option String
  | .SOLID => none
  | .DASHED => some "5 5"
  | .DOTTED => some "1 3"
  | .DASH_DOT => some "10 3 1 3"
  | .LONG_DASH => some "10 5"
  | .SHORT_DASH => some "3 3"
  | .DASH_DOT_DOT => some "10 3 1 3 1 3"
  | .DASH_DOT_DOT_DOT => some "10 3 1 3 1 3 1 3"
  | .SPARSE_DOT => some "1 6"
  | .DENSE_DOT => some "1 1"
  | .NONE => none

/-- Modelled from the spec: the shared hatch-symbol mapping table of the
drawing-parameter renderer (SOLID and NOBRUSH map to no symbol). -/
def hatchSymbol : SymbologyFill → Option Char
  | .SOLID => none
  | .NOBRUSH => none
  | .SLASH => some '/'
  | .BACKSLASH => some '\\'
  | .PIPE => some '|'
  | .DASH => some '-'
  | .PLUS => some '+'
  | .X => some 'x'
  | .O_LOWER => some 'o'
  | .O_UPPER => some 'O'
  | .DOT => some '.'
  | .STAR => some '*'

/-- A value in the drawing-parameter mapping. -/
inductive DrawValue where
  | boolVal (b : Bool)
  | colorVal (c : RGB)
  | ratVal (q : ℚ)
  | strVal (s : String)
  | charVal (c : Char)
  | noneVal
deriving DecidableEq, Repr

/-- `filled` is false only when the resolved fill pattern is NOBRUSH. -/
def Symbology.filledFlag (s : Symbology) : Bool :=
  match s.symbology_fill_style with
  | .fillPattern .NOBRUSH => false
  | _ => true

/-- Hatch symbol of an entity (marker shapes carry no hatch symbol). -/
def Symbology.hatchOf (s : Symbology) : Option Char :=
  match s.symbology_fill_style with
  | .fillPattern f => hatchSymbol f
  | .marker _ => none

/-- Modelled from the spec: the POINT marker radius, derived from the
fill density (the spec fixes only the dependency, not the formula). -/
def radiusFromDensity (d : Nat) : ℚ := ((d : ℚ) + 1) / 2

/-- Option-to-value adapters for the drawing-parameter mapping. -/
def optCharValue : Option Char → DrawValue
  | some c => .charVal c
  | none => .noneVal

/-- String-or-none adapter for the drawing-parameter mapping. -/
def optStrValue : Option String → DrawValue
  | some v => .strVal v
  | none => .noneVal

/-- Modelled from the spec: the drawing-parameter renderer.  A flat
mapping with keys `filled`, `fill_color`, `edge_color`, `line_width`,
`dash_pattern` (from the shared dash table), `hatch_symbol` (from the
shared hatch table), and `radius` only for POINT geometries.  The Python
`to_matplotlib_patch_kwargs` is not among the available sources. -/
def Symbology.to_drawing_params (s : Symbology) : List (String × DrawValue) :=
  [("filled", .boolVal s.filledFlag),
   ("fill_color", .colorVal s.symbology_fill_color),
   ("edge_color", .colorVal s.symbology_stroke_color),
   ("line_width", .ratVal s.symbology_stroke_line),
   ("dash_pattern", optStrValue (sharedDashArray s.symbology_stroke_style)),
   ("hatch_symbol", optCharValue s.hatchOf)] ++
  (match s.symbology_geometry_type with
   | .POINT => [("radius", .ratVal (radiusFromDensity s.symbology_fill_density))]
   | .POLYGON => []
   | .LINE => [])

/-- One hexadecimal digit. -/
def hexDigit (n : Nat) : Char :=
  "0123456789abcdef".data.getD n '0'

/-- Two-digit lowercase hexadecimal form of a byte. -/
def hexByte (n : Nat) : String :=
  ⟨[hexDigit (n / 16 % 16), hexDigit (n % 16)]⟩

/-- `#rrggbb` hexadecimal form of a color. -/
def hexColor (c : RGB) : String :=
  "#" ++ hexByte c.red ++ hexByte c.green ++ hexByte c.blue

/-- Stroke parameters of the map-styling-XML renderer: color, width (forced
to 0 for the NONE line style) and the dash-array taken from the shared
table. -/
structure SldStroke where
  color : String
  width : ℚ
  dashArray : Option String
deriving DecidableEq, Repr

/-- Modelled from the spec: the stroke parameters emitted inside the
map-styling-XML renderer's symbolizer, with the dash-array taken from the
shared dash-array mapping table.  The Python `to_geoserver_sld` is not
among the available sources. -/
def Symbology.to_geoserver_sld_stroke (s : Symbology) : SldStroke :=
  { color := hexColor s.symbology_stroke_color
    width := if s.symbology_stroke_style = LineStyle.NONE then 0
             else s.symbology_stroke_line
    dashArray := sharedDashArray s.symbology_stroke_style }

/-- Declarations of the stylesheet renderer's rule: fill, fill-opacity,
stroke, stroke-width and the optional stroke-dasharray. -/
structure CssRule where
  fill : String
  fillOpacity : ℚ
  stroke : String
  strokeWidth : ℚ
  strokeDasharray : Option String
deriving DecidableEq, Repr

/-- Modelled from the spec: the stylesheet renderer, emitting the
identical fill/stroke/dash-array values as the XML renderer via the same
shared mapping tables.  The Python `to_geoserver_css` is not among the
available sources. -/
def Symbology.to_geoserver_css (s : Symbology) : CssRule :=
  { fill := hexColor s.symbology_fill_color
    fillOpacity := 1
    stroke := hexColor s.symbology_stroke_color
    strokeWidth := if s.symbology_stroke_style = LineStyle.NONE then 0
                   else s.symbology_stroke_line
    strokeDasharray := sharedDashArray s.symbology_stroke_style }

/-- Clamp of `NumberSlider`: `Math.min(Math.max(num, min), max)` from
`handleInputChange` in the NumberSlider component. -/
def clampValue (lo hi x : ℚ) : ℚ := min (max x lo) hi

/-- `handleInputChange` of the NumberSlider component: parse the typed
string (`parse` stands for the numeric parser, returning `none` exactly
when the parse is NaN), and propagate the clamped value through `onChange`
only on a successful parse (`none` models "onChange not invoked"). -/
def handleInputChange (parse : String → Option ℚ) (lo hi : ℚ)
    (s : String) : Option ℚ :=
  match parse s with
  | none => none
  | some num => some (clampValue lo hi num)

lemma length_natToDigitsBE (b f n : ℕ) : (natToDigitsBE b f n).length = f := by
  induction f generalizing n with
  | zero => rfl
  | succ f ih => simp [natToDigitsBE, ih]

lemma mem_natToDigitsBE_lt (b f n : ℕ) (hb : 0 < b) :
    ∀ d ∈ natToDigitsBE b f n, d < b := by
  induction f generalizing n with
  | zero => intro d hd; simp [natToDigitsBE] at hd
  | succ f ih =>
    intro d hd
    simp only [natToDigitsBE, List.mem_append, List.mem_singleton] at hd
    rcases hd with hd | rfl
    · exact ih _ d hd
    · exact Nat.mod_lt _ hb

lemma digitsToNat_append_single (b : ℕ) (l : List Nat) (d : ℕ) :
    digitsToNat b (l ++ [d]) = digitsToNat b l * b + d := by
  simp [digitsToNat, List.foldl_append]

lemma digitsToNat_natToDigitsBE (b f n : ℕ) (_hb : 0 < b) :
    digitsToNat b (natToDigitsBE b f n) = n % b ^ f := by
  induction f generalizing n with
  | zero => simp [natToDigitsBE, digitsToNat, Nat.mod_one]
  | succ f ih =>
    rw [natToDigitsBE, digitsToNat_append_single, ih]
    rw [pow_succ, mul_comm (b ^ f) b, Nat.mod_mul]
    ring

lemma natToDigitsBE_digitsToNat (b : ℕ) (l : List Nat)
    (hl : ∀ d ∈ l, d < b) :
    natToDigitsBE b l.length (digitsToNat b l) = l := by
  induction l using List.reverseRecOn with
  | nil => rfl
  | append_singleton l d ih =>
    have hd : d < b := hl d (by simp)
    have hb : 0 < b := by omega
    have h1 : (digitsToNat b l * b + d) / b = digitsToNat b l := by
      rw [mul_comm, Nat.mul_add_div hb, Nat.div_eq_of_lt hd]
      omega
    have h2 : (digitsToNat b l * b + d) % b = d := by
      rw [mul_comm, Nat.mul_add_mod, Nat.mod_eq_of_lt hd]
    rw [digitsToNat_append_single, List.length_append, List.length_singleton,
      natToDigitsBE, h1, h2, ih (fun x hx => hl x (by simp [hx]))]

lemma digitsToNat_lt (b : ℕ) (_hb : 0 < b) (l : List Nat)
    (hl : ∀ d ∈ l, d < b) : digitsToNat b l < b ^ l.length := by
  induction l using List.reverseRecOn with
  | nil =>
    show 0 < b ^ ([] : List Nat).length
    norm_num
  | append_singleton l d ih =>
    have hd : d < b := hl d (by simp)
    have ihl : digitsToNat b l < b ^ l.length := ih (fun x hx => hl x (by simp [hx]))
    rw [digitsToNat_append_single, List.length_append, List.length_singleton,
      pow_succ]
    calc digitsToNat b l * b + d < digitsToNat b l * b + b := by omega
    _ = (digitsToNat b l + 1) * b := by ring
    _ ≤ b ^ l.length * b := Nat.mul_le_mul_right b ihl

lemma digitsToNat_cons (b x : ℕ) (l : List Nat) :
    digitsToNat b (x :: l) = x * b ^ l.length + digitsToNat b l := by
  induction l using List.reverseRecOn with
  | nil => simp [digitsToNat]
  | append_singleton l d ih =>
    rw [← List.cons_append, digitsToNat_append_single, digitsToNat_append_single,
      ih, List.length_append, List.length_singleton, pow_succ]
    ring

lemma charValue_base62Char : ∀ d, d < 62 → charValue (base62Char d) = some d := by
  decide

lemma charValues_map_base62 (l : List Nat) (hl : ∀ d ∈ l, d < 62) :
    charValues (l.map base62Char) = .ok l := by
  induction l with
  | nil => rfl
  | cons d ds ih =>
    have hd : d < 62 := hl d (by simp)
    simp only [List.map_cons, charValues, charValue_base62Char d hd,
      ih (fun x hx => hl x (by simp [hx]))]
    rfl

lemma charValueAux_eq_none (l : List Char) (c : Char) :
    charValueAux l c = none ↔ c ∉ l := by
  induction l with
  | nil => simp [charValueAux]
  | cons a rest ih =>
    by_cases h : a = c
    · subst h
      simp [charValueAux]
    · simp [charValueAux, h, Option.map_eq_none', ih, Ne.symm h]

lemma charValue_eq_none_iff (c : Char) :
    charValue c = none ↔ c ∉ BASE62_ALPHABET :=
  charValueAux_eq_none BASE62_ALPHABET c

lemma charValues_error_iff (l : List Char) :
    (∃ c, charValues l = .error c) ↔ ∃ c ∈ l, c ∉ BASE62_ALPHABET := by
  induction l with
  | nil => simp [charValues]
  | cons a rest ih =>
    cases h : charValue a with
    | none =>
      simp only [charValues, h]
      constructor
      · intro _
        exact ⟨a, by simp, (charValue_eq_none_iff a).mp h⟩
      · intro _
        exact ⟨a, rfl⟩
    | some d =>
      have ha : a ∈ BASE62_ALPHABET := by
        by_contra hc
        rw [← charValue_eq_none_iff] at hc
        rw [h] at hc
        exact Option.noConfusion hc
      simp only [charValues, h]
      cases hr : charValues rest with
      | error c =>
        simp only [Except.map]
        constructor
        · intro _
          have := ih.mp ⟨c, hr⟩
          obtain ⟨x, hx, hxn⟩ := this
          exact ⟨x, by simp [hx], hxn⟩
        · intro _
          exact ⟨c, rfl⟩
      | ok ds =>
        simp only [Except.map]
        constructor
        · rintro ⟨c, hc⟩
          exact Except.noConfusion hc
        · rintro ⟨x, hx, hxn⟩
          rcases List.mem_cons.mp hx with rfl | hx'
          · exact absurd ha hxn
          · obtain ⟨c, hc⟩ := ih.mpr ⟨x, hx', hxn⟩
            rw [hc] at hr
            exact Except.noConfusion hr

lemma milli_cancel (n : ℕ) : ((n : ℚ) / 1000) * 1000 = (n : ℚ) :=
  div_mul_cancel₀ _ (by norm_num)

lemma strokeMilli_milli (n : ℕ) : strokeMilli ((n : ℚ) / 1000) = n := by
  unfold strokeMilli
  rw [milli_cancel, round_natCast, Int.toNat_natCast]

lemma round3_milli (n : ℕ) : round3 ((n : ℚ) / 1000) = (n : ℚ) / 1000 := by
  unfold round3
  rw [milli_cancel, round_natCast]
  norm_num

lemma geometry_fromCode_code (g : SymbologyGeometryType) :
    SymbologyGeometryType.fromCode g.code = some g := by
  cases g <;> rfl

lemma fill_fromCode_code (f : SymbologyFill) :
    SymbologyFill.fromCode f.code = some f := by
  cases f <;> rfl

lemma marker_fromCode_code (m : MarkerType) :
    MarkerType.fromCode m.code = some m := by
  cases m <;> rfl

lemma lineStyle_fromCode_code (l : LineStyle) :
    LineStyle.fromCode l.code = some l := by
  cases l <;> rfl

lemma geometry_code_le (g : SymbologyGeometryType) : g.code ≤ 2 := by
  cases g <;> decide

lemma fillStyle_code_le (fs : FillStyleOrMarker) : fs.code ≤ 11 := by
  cases fs with
  | fillPattern f => cases f <;> decide
  | marker m => cases m <;> decide

lemma lineStyle_code_le (l : LineStyle) : l.code ≤ 10 := by
  cases l <;> decide

lemma colorOk_bounds (c : RGB) (h : colorOk c = true) :
    c.red ≤ 255 ∧ c.green ≤ 255 ∧ c.blue ≤ 255 := by
  simp [colorOk] at h
  exact ⟨h.1.1, h.1.2, h.2⟩

lemma pack_bytes_lt (s : Symbology) (h : s.Valid) : ∀ d ∈ s.pack, d < 256 := by
  obtain ⟨hfc, hsc, _, hfd, n, hn, hw⟩ := h
  obtain ⟨hr1, hg1, hb1⟩ := colorOk_bounds _ hfc
  obtain ⟨hr2, hg2, hb2⟩ := colorOk_bounds _ hsc
  have hms : strokeMilli s.symbology_stroke_line = n := by
    rw [hw, strokeMilli_milli]
  have hg := geometry_code_le s.symbology_geometry_type
  have hfs := fillStyle_code_le s.symbology_fill_style
  have hls := lineStyle_code_le s.symbology_stroke_style
  intro d hd
  simp only [Symbology.pack, hms, List.mem_cons, List.not_mem_nil, or_false] at hd
  rcases hd with rfl | rfl | rfl | rfl | rfl | rfl | rfl | rfl | rfl | rfl | rfl | rfl | rfl <;> omega

lemma pack_val_lt (s : Symbology) (h : s.Valid) :
    digitsToNat 256 s.pack < 62 ^ 17 := by
  have hlt := pack_bytes_lt s h
  have hg := geometry_code_le s.symbology_geometry_type
  obtain ⟨b0, rest, hps, hlen⟩ :
      ∃ b0 rest, s.pack = b0 :: rest ∧ rest.length = 12 := by
    refine ⟨_, _, rfl, rfl⟩
  have hb0 : b0 ≤ 2 := by
    have : b0 = s.symbology_geometry_type.code := by
      have := hps
      simp [Symbology.pack] at this
      exact this.1.symm
    omega
  have hrest : digitsToNat 256 rest < 256 ^ 12 := by
    have := digitsToNat_lt 256 (by norm_num) rest
      (fun d hd => hlt d (by rw [hps]; exact List.mem_cons_of_mem _ hd))
    rwa [hlen] at this
  rw [hps, digitsToNat_cons, hlen]
  calc b0 * 256 ^ 12 + digitsToNat 256 rest
      < 3 * 256 ^ 12 := by omega
    _ ≤ 62 ^ 17 := by norm_num

lemma string_mk_length (l : List Char) : (String.mk l).length = l.length := rfl

lemma decode_encode_pack (s : Symbology) (h : s.Valid) :
    base62Decode (base62Encode s.pack) = .ok s.pack := by
  unfold base62Encode base62Decode
  have hlen : (String.mk ((natToDigitsBE 62 17 (digitsToNat 256 s.pack)).map
      base62Char)).length = 17 := by
    rw [string_mk_length, List.length_map, length_natToDigitsBE]
  rw [if_pos hlen]
  have hdig : ∀ d ∈ natToDigitsBE 62 17 (digitsToNat 256 s.pack), d < 62 :=
    mem_natToDigitsBE_lt 62 17 _ (by norm_num)
  have hback := natToDigitsBE_digitsToNat 256 s.pack (pack_bytes_lt s h)
  have h13 : s.pack.length = 13 := rfl
  rw [h13] at hback
  simp only [charValues_map_base62 _ hdig]
  rw [digitsToNat_natToDigitsBE 62 17 _ (by norm_num),
    Nat.mod_eq_of_lt (pack_val_lt s h), hback]

lemma geometry_fromCode_zero : SymbologyGeometryType.fromCode 0 = some .POLYGON := rfl

lemma geometry_fromCode_one : SymbologyGeometryType.fromCode 1 = some .LINE := rfl

lemma geometry_fromCode_two : SymbologyGeometryType.fromCode 2 = some .POINT := rfl

lemma unpack_pack (s : Symbology) (h : s.Valid) :
    Symbology.unpack s.pack = .ok s := by
  obtain ⟨hfc, hsc, hmatch, hfd, n, hn, hw⟩ := h
  obtain ⟨g, fc, fs, fd, sc, ls, sl⟩ := s
  simp only at hfc hsc hmatch hfd hw
  have hms : strokeMilli sl = n := by rw [hw, strokeMilli_milli]
  have hwval : ((n / 256 * 256 + n % 256 : ℕ) : ℚ) / 1000 = sl := by
    rw [show n / 256 * 256 + n % 256 = n by omega, ← hw]
  cases g with
  | POINT =>
    cases fs with
    | fillPattern f => simp [geometryMatchesFill] at hmatch
    | marker m =>
      simp only [Symbology.pack, Symbology.unpack, hms,
        SymbologyGeometryType.code, geometry_fromCode_two,
        FillStyleOrMarker.code, marker_fromCode_code, Option.map_some',
        lineStyle_fromCode_code]
      rw [if_neg (by omega), if_neg (by simp), hwval]
  | POLYGON =>
    cases fs with
    | marker m => simp [geometryMatchesFill] at hmatch
    | fillPattern f =>
      simp only [Symbology.pack, Symbology.unpack, hms,
        SymbologyGeometryType.code, geometry_fromCode_zero,
        FillStyleOrMarker.code, fill_fromCode_code, Option.map_some',
        lineStyle_fromCode_code]
      rw [if_neg (by omega), if_neg (by simp), hwval]
  | LINE =>
    cases fs with
    | marker m => simp [geometryMatchesFill] at hmatch
    | fillPattern f =>
      simp only [Symbology.pack, Symbology.unpack, hms,
        SymbologyGeometryType.code, geometry_fromCode_one,
        FillStyleOrMarker.code, fill_fromCode_code, Option.map_some',
        lineStyle_fromCode_code]
      rw [if_neg (by omega), if_neg (by simp), hwval]

lemma from_url_key_url_key (s : Symbology) (h : s.Valid) :
    Symbology.from_url_key s.url_key = .ok s := by
  unfold Symbology.from_url_key Symbology.url_key
  rw [decode_encode_pack s h]
  simp only [unpack_pack s h, Except.mapError]

lemma construct_ok_valid {g fc fs fd sc ss sw s}
    (h : Symbology.construct g fc fs fd sc ss sw = .ok s) : s.Valid := by
  unfold Symbology.construct at h
  by_cases h1 : !(colorOk fc && colorOk sc)
  · rw [if_pos h1] at h; exact absurd h (by simp)
  · rw [if_neg h1] at h
    by_cases h2 : !(geometryMatchesFill g fs)
    · rw [if_pos h2] at h; exact absurd h (by simp)
    · rw [if_neg h2] at h
      by_cases h3 : fd > 10
      · rw [if_pos h3] at h; exact absurd h (by simp)
      · rw [if_neg h3] at h
        by_cases h4 : round3 sw < 0 ∨ 50 < round3 sw
        · rw [if_pos h4] at h; exact absurd h (by simp)
        · rw [if_neg h4] at h
          simp only [Except.ok.injEq] at h
          subst h
          push_neg at h4
          obtain ⟨hge, hle⟩ := h4
          simp only [Bool.not_eq_true', Bool.and_eq_false_iff] at h1 h2
          simp only [Bool.not_eq_false] at h1 h2
          push_neg at h1
          refine ⟨Bool.not_eq_false _ ▸ h1.1, Bool.not_eq_false _ ▸ h1.2, h2,
            show fd ≤ 10 by omega, ?_⟩
          set m : ℤ := round (sw * 1000) with hm
          have hq : round3 sw = (m : ℚ) / 1000 := rfl
          have hm0 : 0 ≤ m := by
        
            rw [hq] at hge
            have := (div_nonneg_iff.mp hge)
            rcases this with ⟨hnum, _⟩ | ⟨hnum, hden⟩
            · exact_mod_cast hnum
            · norm_num at hden
          have hm50 : m ≤ 50000 := by
            rw [hq, div_le_iff₀ (by norm_num : (0:ℚ) < 1000)] at hle
            have : (m : ℚ) ≤ 50000 := by linarith
            exact_mod_cast this
          refine ⟨m.toNat, by omega, ?_⟩
          simp only [hq]
          rw [show ((m.toNat : ℕ) : ℚ) = (m : ℚ) by
            exact_mod_cast Int.toNat_of_nonneg hm0]

lemma round3_two : round3 2 = 2 := by
  rw [show (2 : ℚ) = ((2000 : ℕ) : ℚ) / 1000 by norm_num, round3_milli]

lemma construct_eval_ok (g : SymbologyGeometryType) (fc : RGB)
    (fs : FillStyleOrMarker) (fd : Nat) (sc : RGB) (ss : LineStyle)
    (sw : ℚ) (n : ℕ) (hc : (colorOk fc && colorOk sc) = true)
    (hm : geometryMatchesFill g fs = true) (hd : fd ≤ 10)
    (hsw : sw = (n : ℚ) / 1000) (hn : n ≤ 50000) :
    Symbology.construct g fc fs fd sc ss sw = .ok ⟨g, fc, fs, fd, sc, ss, sw⟩ := by
  have hcond : ¬((n : ℚ) / 1000 < 0 ∨ 50 < (n : ℚ) / 1000) := by
    push_neg
    refine ⟨by positivity, ?_⟩
    rw [div_le_iff₀ (by norm_num : (0:ℚ) < 1000)]
    have : ((n : ℚ)) ≤ 50000 := by exact_mod_cast hn
    linarith
  unfold Symbology.construct
  rw [hsw, round3_milli]
  rw [if_neg (by simp [hc]), if_neg (by simp [hm]), if_neg (by omega),
    if_neg hcond]

/-- Entity used to witness the C1 round-trip theorem: POLYGON, red solid
fill, density 0, blue dashed stroke of width 2. -/
def entC1 : Symbology :=
  ⟨.POLYGON, ⟨255, 0, 0⟩, .fillPattern .SOLID, 0, ⟨0, 0, 255⟩, .DASHED, 2⟩

lemma construct_entC1 :
    Symbology.construct .POLYGON ⟨255, 0, 0⟩ (.fillPattern .SOLID) 0
      ⟨0, 0, 255⟩ .DASHED 2 = .ok entC1 :=
  construct_eval_ok _ _ _ _ _ _ _ 2000 (by decide) (by decide) (by decide)
    (by norm_num) (by norm_num)

/-- C1: for every validly constructed Style Entity, decoding its
17-character identifier (`from_url_key` composed of decode then unpack,
applied to `url_key` composed of pack then encode) yields an entity whose
`cache_key` tuple is identical to the original entity's `cache_key`
tuple. -/
theorem url_key_roundtrip_preserves_cache_key
    (g : SymbologyGeometryType) (fc : RGB) (fs : FillStyleOrMarker)
    (fd : Nat) (sc : RGB) (ss : LineStyle) (sw : ℚ) (s : Symbology)
    (h : Symbology.construct g fc fs fd sc ss sw = .ok s) :
    ∃ s', Symbology.from_url_key s.url_key = .ok s' ∧
      s'.cache_key = s.cache_key :=
  ⟨s, from_url_key_url_key s (construct_ok_valid h), rfl⟩

/-- C1 witness: the round-trip theorem applied to a concretely constructed
POLYGON entity. -/
theorem url_key_roundtrip_preserves_cache_key_witness :
    ∃ s', Symbology.from_url_key entC1.url_key = .ok s' ∧
      s'.cache_key = entC1.cache_key :=
  url_key_roundtrip_preserves_cache_key .POLYGON ⟨255, 0, 0⟩
    (.fillPattern .SOLID) 0 ⟨0, 0, 255⟩ .DASHED 2 entC1 construct_entC1

/-- POINT entity with fill-style ordinal 0 (CIRCLE in the marker table). -/
def entC2point : Symbology :=
  ⟨.POINT, ⟨10, 20, 30⟩, .marker .CIRCLE, 0, ⟨1, 2, 3⟩, .SOLID, 1⟩

/-- POLYGON entity with fill-style ordinal 0 (SOLID in the fill table). -/
def entC2poly : Symbology :=
  ⟨.POLYGON, ⟨10, 20, 30⟩, .fillPattern .SOLID, 0, ⟨1, 2, 3⟩, .SOLID, 1⟩

lemma entC2point_valid : entC2point.Valid :=
  ⟨by decide, by decide, by decide, by decide, 1000, by norm_num,
    show (1 : ℚ) = ((1000 : ℕ) : ℚ) / 1000 by norm_num⟩

lemma entC2poly_valid : entC2poly.Valid :=
  ⟨by decide, by decide, by decide, by decide, 1000, by norm_num,
    show (1 : ℚ) = ((1000 : ℕ) : ℚ) / 1000 by norm_num⟩

/-- C2: the byte at offset 4 is interpreted through the marker-shape table
when the byte at offset 0 encodes POINT and through the fill-pattern table
otherwise, symmetrically in pack and unpack: a POINT entity with
fill-style ordinal 0 round-trips with CIRCLE semantics, a POLYGON entity
with ordinal 0 round-trips with SOLID semantics, and the two are never
conflated. -/
theorem offset4_dispatch_by_geometry :
    (entC2point.pack.getD 0 99 = 2 ∧ entC2poly.pack.getD 0 99 = 0) ∧
    (entC2point.pack.getD 4 99 = 0 ∧ entC2poly.pack.getD 4 99 = 0) ∧
    Symbology.from_url_key entC2point.url_key = .ok entC2point ∧
    Symbology.from_url_key entC2poly.url_key = .ok entC2poly ∧
    entC2point.symbology_fill_style = .marker .CIRCLE ∧
    entC2poly.symbology_fill_style = .fillPattern .SOLID ∧
    (entC2point.symbology_fill_style == entC2poly.symbology_fill_style) = false :=
  ⟨⟨rfl, rfl⟩, ⟨rfl, rfl⟩,
    from_url_key_url_key entC2point entC2point_valid,
    from_url_key_url_key entC2poly entC2poly_valid,
    rfl, rfl, rfl⟩

/-- The scenario entity of C3: POLYGON, fill (255,0,0) SOLID density 0,
stroke (0,0,255) DASHED width 2.0. -/
def entC3 : Symbology :=
  ⟨.POLYGON, ⟨255, 0, 0⟩, .fillPattern .SOLID, 0, ⟨0, 0, 255⟩, .DASHED, 2⟩

lemma entC3_pack : entC3.pack = [0, 255, 0, 0, 0, 0, 0, 0, 255, 1, 7, 208, 0] := by
  have hms : strokeMilli (2 : ℚ) = 2000 := by
    rw [show (2 : ℚ) = ((2000 : ℕ) : ℚ) / 1000 by norm_num, strokeMilli_milli]
  show Symbology.pack _ = _
  simp only [Symbology.pack, entC3, hms]
  rfl

/-- C3 counterexample: the scenario entity does not pack to the claimed
byte sequence whose offset-9 byte is 3; the stroke-style byte of DASHED is
its zero-based wire ordinal 1. -/
theorem scenario_pack_bytes_claim_false :
    (entC3.pack = [0, 255, 0, 0, 0, 0, 0, 0, 255, 3, 7, 208, 0]) = False :=
  eq_false (by rw [entC3_pack]; decide)

/-- C3 amended: the scenario entity packs to the 13-byte sequence
`[0, 255, 0, 0, 0, 0, 0, 0, 255, 1, 0x07, 0xD0, 0]` — offset 9 carries
DASHED's zero-based wire ordinal 1 rather than 3 — with the stroke width
stored as the big-endian 16-bit value 0x07D0 = 2000 = 2.0 × 1000. -/
theorem scenario_pack_bytes_amended :
    entC3.pack = [0, 255, 0, 0, 0, 0, 0, 0, 255, 1, 7, 208, 0] ∧
    strokeMilli entC3.symbology_stroke_line = 2000 ∧
    7 * 256 + 208 = 2000 :=
  ⟨entC3_pack,
    by rw [show entC3.symbology_stroke_line = ((2000 : ℕ) : ℚ) / 1000 by
        show (2 : ℚ) = _; norm_num]
       exact strokeMilli_milli 2000,
    by norm_num⟩

/-- C4: the stroke-style enumeration consists of exactly the 11 members
SOLID, DASHED, DOTTED, DASH_DOT, LONG_DASH, SHORT_DASH, DASH_DOT_DOT,
DASH_DOT_DOT_DOT, SPARSE_DOT, DENSE_DOT, NONE, in the order of the
frontend `LINE_STYLES` table, and its wire ordinals are assigned
zero-based in that listed order. -/
theorem stroke_style_members_and_ordinals :
    LINE_STYLES.length = 11 ∧
    LineStyle.members.map LineStyle.memberName = LINE_STYLES ∧
    LineStyle.members.map LineStyle.code = List.range 11 ∧
    ∀ l : LineStyle, l ∈ LineStyle.members := by
  refine ⟨rfl, by decide, by decide, ?_⟩
  intro l
  cases l <;> decide

/-- C5 counterexample: the name STAR belongs to both the fill-pattern
table and the marker-shape table, so the two tables are not disjoint as
sets of names. -/
theorem fill_marker_tables_share_star :
    "STAR" ∈ FILL_STYLES ∧ "STAR" ∈ MARKER_TYPES := by
  refine ⟨?_, ?_⟩ <;> decide

/-- C5 amended: the two 12-value tables overlap in exactly the one name
STAR; every other name belongs to at most one of them. -/
theorem fill_marker_tables_overlap_exactly_star :
    FILL_STYLES.length = 12 ∧ MARKER_TYPES.length = 12 ∧
    FILL_STYLES.filter (fun n => MARKER_TYPES.contains n) = ["STAR"] ∧
    MARKER_TYPES.filter (fun n => FILL_STYLES.contains n) = ["STAR"] := by
  refine ⟨rfl, rfl, ?_, ?_⟩ <;> decide

/-- C6: entity construction with fill_density 0 or 10 succeeds and with 11
fails with a ValidationError; construction with stroke_width 0.0 or 50.0
succeeds and with 50.001 fails with a ValidationError; a failing
construction returns only the error and no entity. -/
theorem construction_boundary_validation :
    (Symbology.construct .POLYGON ⟨255, 0, 0⟩ (.fillPattern .SOLID) 0
      ⟨0, 0, 255⟩ .DASHED 2).isOk = true ∧
    (Symbology.construct .POLYGON ⟨255, 0, 0⟩ (.fillPattern .SOLID) 10
      ⟨0, 0, 255⟩ .DASHED 2).isOk = true ∧
    Symbology.construct .POLYGON ⟨255, 0, 0⟩ (.fillPattern .SOLID) 11
      ⟨0, 0, 255⟩ .DASHED 2 = .error (.fill_density_out_of_range 11) ∧
    (Symbology.construct .POLYGON ⟨255, 0, 0⟩ (.fillPattern .SOLID) 0
      ⟨0, 0, 255⟩ .DASHED 0).isOk = true ∧
    (Symbology.construct .POLYGON ⟨255, 0, 0⟩ (.fillPattern .SOLID) 0
      ⟨0, 0, 255⟩ .DASHED 50).isOk = true ∧
    Symbology.construct .POLYGON ⟨255, 0, 0⟩ (.fillPattern .SOLID) 0
      ⟨0, 0, 255⟩ .DASHED (50001 / 1000)
      = .error (.stroke_width_out_of_range (50001 / 1000)) := by
  refine ⟨?_, ?_, ?_, ?_, ?_, ?_⟩
  · rw [construct_eval_ok _ _ _ _ _ _ _ 2000 (by decide) (by decide)
      (by decide) (by norm_num) (by norm_num)]
    rfl
  · rw [construct_eval_ok _ _ _ _ _ _ _ 2000 (by decide) (by decide)
      (by decide) (by norm_num) (by norm_num)]
    rfl
  · unfold Symbology.construct
    rw [if_neg (by decide), if_neg (by decide), if_pos (by decide)]
  · rw [construct_eval_ok _ _ _ _ _ _ _ 0 (by decide) (by decide)
      (by decide) (by norm_num) (by norm_num)]
    rfl
  · rw [construct_eval_ok _ _ _ _ _ _ _ 50000 (by decide) (by decide)
      (by decide) (by norm_num) (by norm_num)]
    rfl
  · unfold Symbology.construct
    rw [show (50001 / 1000 : ℚ) = ((50001 : ℕ) : ℚ) / 1000 by norm_num,
      round3_milli]
    rw [if_neg (by decide), if_neg (by decide), if_neg (by decide),
      if_pos (Or.inr (by push_cast; norm_num))]

/-- C7: Base62 decode fails exactly when the string's length differs from
17 or some character lies outside the 62-symbol alphabet, and in the
length case the error carries both the expected length 17 and the actual
received length. -/
theorem base62Decode_failure_characterization (str : String) :
    ((∃ e, base62Decode str = .error e) ↔
      (str.length ≠ 17 ∨ ∃ c ∈ str.data, c ∉ BASE62_ALPHABET)) ∧
    (str.length ≠ 17 → base62Decode str = .error (.badLength 17 str.length)) := by
  unfold base62Decode
  by_cases hl : str.length = 17
  · rw [if_pos hl]
    refine ⟨?_, fun hne => absurd hl hne⟩
    cases h : charValues str.data with
    | error c =>
      refine ⟨fun _ => Or.inr ?_, fun _ => ⟨.badChar c, rfl⟩⟩
      exact (charValues_error_iff str.data).mp ⟨c, h⟩
    | ok ds =>
      constructor
      · rintro ⟨e, he⟩
        exact Except.noConfusion he
      · rintro (hne | hbad)
        · exact absurd hl hne
        · obtain ⟨c, hc⟩ := (charValues_error_iff str.data).mpr hbad
          rw [hc] at h
          exact Except.noConfusion h
  · rw [if_neg hl]
    exact ⟨⟨fun _ => Or.inl hl, fun _ => ⟨.badLength 17 str.length, rfl⟩⟩,
      fun _ => rfl⟩

/-- C7 witness: a 3-character string fails with the length error reporting
expected 17 and received 3, and a 17-character string containing the
non-alphabet character `!` also fails. -/
theorem base62Decode_failure_characterization_witness :
    base62Decode "abc" = .error (.badLength 17 3) ∧
    (∃ e, base62Decode "ABCDEFGHIJKLMNOP!" = .error e) := by
  constructor
  · exact (base62Decode_failure_characterization "abc").2 (by decide)
  · exact (base62Decode_failure_characterization "ABCDEFGHIJKLMNOP!").1.mpr
      (Or.inr ⟨'!', by decide, by decide⟩)

/-- C8: for every entity, the stroke-dasharray emitted by the stylesheet
renderer equals the dash-array of the map-styling-XML renderer for the
same stroke style, both being taken from the one shared dash-array
mapping table; for DASHED both are exactly `"5 5"`. -/
theorem css_sld_dasharray_agree (s : Symbology) :
    (s.to_geoserver_css).strokeDasharray = (s.to_geoserver_sld_stroke).dashArray ∧
    (s.symbology_stroke_style = LineStyle.DASHED →
      (s.to_geoserver_css).strokeDasharray = some "5 5" ∧
      (s.to_geoserver_sld_stroke).dashArray = some "5 5") := by
  refine ⟨rfl, fun h => ?_⟩
  constructor <;>
    simp [Symbology.to_geoserver_css, Symbology.to_geoserver_sld_stroke, h,
      sharedDashArray]

/-- Entity used to witness the C8 renderer-agreement theorem: a LINE
entity with a DASHED stroke. -/
def entC8 : Symbology :=
  ⟨.LINE, ⟨0, 0, 0⟩, .fillPattern .SOLID, 0, ⟨0, 0, 0⟩, .DASHED, 1⟩

/-- C8 witness: the agreement theorem applied to a concrete DASHED
entity. -/
theorem css_sld_dasharray_agree_witness :
    (entC8.to_geoserver_css).strokeDasharray =
      (entC8.to_geoserver_sld_stroke).dashArray ∧
    (entC8.to_geoserver_css).strokeDasharray = some "5 5" ∧
    (entC8.to_geoserver_sld_stroke).dashArray = some "5 5" :=
  ⟨(css_sld_dasharray_agree entC8).1, (css_sld_dasharray_agree entC8).2 rfl⟩

/-- C9: for every entity, the drawing-parameter renderer returns a flat
mapping whose keys are exactly `filled`, `fill_color`, `edge_color`,
`line_width`, `dash_pattern`, `hatch_symbol`, plus `radius` if and only if
the geometry kind is POINT. -/
theorem drawing_params_keys (s : Symbology) :
    (s.to_drawing_params).map Prod.fst =
      ["filled", "fill_color", "edge_color", "line_width", "dash_pattern",
       "hatch_symbol"] ++
      (if s.symbology_geometry_type = SymbologyGeometryType.POINT
       then ["radius"] else []) ∧
    ("radius" ∈ (s.to_drawing_params).map Prod.fst ↔
      s.symbology_geometry_type = SymbologyGeometryType.POINT) := by
  obtain ⟨g, fc, fs, fd, sc, ls, sl⟩ := s
  cases g <;> refine ⟨rfl, ?_⟩ <;>
    simp only [Symbology.to_drawing_params, List.map_append, List.map_cons,
      List.map_nil, List.append_nil] <;> decide

/-- C10: for every typed string, the NumberSlider's handleInputChange
propagates a value only when the parse is not NaN, and then always the
clamp `min (max parsed lo) hi`, which lies within `[lo, hi]` whenever
`lo ≤ hi`; a non-numeric string propagates no value. -/
theorem numberSlider_input_clamped (parse : String → Option ℚ) (lo hi : ℚ)
    (str : String) :
    (parse str = none → handleInputChange parse lo hi str = none) ∧
    (∀ num, parse str = some num →
      handleInputChange parse lo hi str = some (min (max num lo) hi) ∧
      (lo ≤ hi → lo ≤ min (max num lo) hi ∧ min (max num lo) hi ≤ hi)) := by
  constructor
  · intro h
    simp [handleInputChange, h]
  · intro num h
    refine ⟨by simp [handleInputChange, h, clampValue], fun hle => ⟨?_, ?_⟩⟩
    · exact le_min (le_max_right num lo) hle
    · exact min_le_right _ _

/-- C10 witness: the clamping theorem applied to a parser returning 7 on
the string `7` with the range `[0, 50]`. -/
theorem numberSlider_input_clamped_witness :
    handleInputChange (fun _ => some 7) 0 50 "7" = some (min (max 7 0) 50) ∧
    (0 : ℚ) ≤ min (max 7 0) 50 ∧ min (max (7 : ℚ) 0) 50 ≤ 50 := by
  have h := (numberSlider_input_clamped (fun _ => some 7) 0 50 "7").2 7 rfl
  exact ⟨h.1, h.2 (by norm_num)⟩
